import Mathlib

/-!
Verification of the marksmanship-trainer core: ballistic solver, range card,
scoring, mastery counter, instructor feedback and the session state machine.

The source is TypeScript operating on IEEE doubles; the embedding uses exact
rationals (`ℚ`) for all numeric state, which is the idealised arithmetic the
design document states its formulas in.  The only transcendental operations in
the source are `Math.cos` (wind decomposition) and `Math.pow (·, 1.8)` (drift
curve); their exact values never influence any verified property (they are
always multiplied by a quantity that the properties either fix or cancel), so
they are passed to the embedded functions as explicit function parameters
(`cosDeg`, standing for `deg ↦ Math.cos (deg * π / 180)`, and `powDrift`,
standing for `x ↦ Math.pow (x, 1.8)`).  Theorems quantify over these
parameters, hence hold in particular for the real cosine and power functions.

`Math.sqrt` appears only under `Math.floor (√s / w)` and in the comparison
`√s < r`; both are embedded exactly over `ℚ` (see `floorSqrtDiv`) and proved
equal to the real-number expressions in the scoring theorems.
-/

/-- Environment record from `types.ts`: wind speed (m/s), wind direction
(degrees, 0 = North), temperature (°C), humidity (%), distance (m). -/
structure Environment where
  windSpeed : ℚ
  windDirection : ℚ
  temperature : ℚ
  humidity : ℚ
  distance : ℚ
deriving DecidableEq

/-- Turret state from `types.ts`: elevation and windage dials in MILs. -/
structure TurretState where
  elevation : ℚ
  windage : ℚ
deriving DecidableEq

/-- Shot result record from `types.ts`. -/
structure ShotResult where
  hit : Bool
  score : ℤ
  rings : ℤ
  dropError : ℚ
  windError : ℚ
  timestamp : ℤ
deriving DecidableEq

/-- Constant from `constants.ts`: muzzle velocity in m/s. -/
def MUZZLE_VELOCITY : ℚ := 850

/-- Constant from `constants.ts`: standard temperature in °C. -/
def STANDARD_TEMP : ℚ := 15

/-- Constant from `constants.ts`: target diameter in cm. -/
def TARGET_SIZE_CM : ℚ := 45

/-- Ballistic solver `calculateImpact` from `services/ballistics.ts`.
`cosDeg` stands for `deg ↦ Math.cos (deg * π / 180)` (the source converts
`windDirection - 90` to radians and applies `Math.cos`); `powDrift` stands for
`x ↦ Math.pow (x, 1.8)`.  The source also computes an unused
`headWindComponent` (`Math.sin` of the same angle); being dead it is omitted.
Returns `(x, y)` in centimeters from the point of aim. -/
def calculateImpact (cosDeg powDrift : ℚ → ℚ) (env : Environment)
    (turrets : TurretState) : ℚ × ℚ :=
  let dist := env.distance
  let timeOfFlight := dist / (MUZZLE_VELOCITY * 0.92)
  let gravityDropMeters := 0.5 * 9.81 * timeOfFlight ^ 2
  let gravityDropCm := gravityDropMeters * 100
  let tempDiff := env.temperature - STANDARD_TEMP
  let densityFactor := 1 - tempDiff * 0.002
  let actualDropCm := gravityDropCm * densityFactor
  let crossWindComponent := env.windSpeed * cosDeg (env.windDirection - 90)
  let driftFactor := powDrift (dist / 100)
  let windDriftCm := crossWindComponent * driftFactor * 0.15
  let milValueAtDistCm := 10 * (dist / 100)
  let elevationCorrectionCm := turrets.elevation * milValueAtDistCm
  let windageCorrectionCm := turrets.windage * milValueAtDistCm
  let verticalImpactCm := -actualDropCm + elevationCorrectionCm
  let horizontalImpactCm := -windDriftCm + windageCorrectionCm
  (horizontalImpactCm, verticalImpactCm)

/-- Impact offsets written exactly as the specification document words them
(§4.1 of the spec), for comparison with `calculateImpact`: t = distance /
(850 × 0.92); drop in cm = 100 · ½ · 9.81 · t² times the density factor
1 − (temperature − 15) × 0.002; crosswind = windSpeed · cos((windDirection −
90) degrees); wind drift = crosswind × (distance/100)^1.8 × 0.15; milCm =
10 · (distance/100); y = −drop + elevation · milCm, x = −drift + windage ·
milCm.  Uses the same `cosDeg` / `powDrift` parameters. -/
def specImpact (cosDeg powDrift : ℚ → ℚ) (env : Environment)
    (turrets : TurretState) : ℚ × ℚ :=
  let t := env.distance / (850 * 0.92)
  let drop := 100 * (1 / 2 * 9.81 * t ^ 2) * (1 - (env.temperature - 15) * 0.002)
  let crosswind := env.windSpeed * cosDeg (env.windDirection - 90)
  let windDrift := crosswind * powDrift (env.distance / 100) * 0.15
  let milCm := 10 * (env.distance / 100)
  (-windDrift + turrets.windage * milCm, -drop + turrets.elevation * milCm)

/-- Exact model of `parseFloat (q.toFixed (1))` for nonnegative `q`:
JavaScript `toFixed` rounds to the nearest multiple of 0.1, ties away from
zero, which for `q ≥ 0` is `⌊10q + 1/2⌋ / 10`.  (All uses in the source apply
it to nonnegative values.) -/
def toFixed1 (q : ℚ) : ℚ := (⌊q * 10 + 1 / 2⌋ : ℚ) / 10

/-- One row of the range card. -/
structure RangeEntry where
  distance : ℚ
  elevation : ℚ
deriving DecidableEq

/-- List of reference distances used by `generateRangeCard`. -/
def rangeCardDistances : List ℚ :=
  [200, 300, 400, 500, 600, 700, 800, 900, 1000, 1100, 1200]

/-- Range card builder `generateRangeCard` from `services/ballistics.ts`:
for each reference distance, the same time-of-flight, drop and
temperature-density steps as the solver (zero wind, zero dial), converted to
required MILs as drop-in-cm divided by distance/10, rounded to one decimal. -/
def generateRangeCard (temp : ℚ) : List RangeEntry :=
  rangeCardDistances.map fun d =>
    let t := d / (MUZZLE_VELOCITY * 0.92)
    let dropM := 0.5 * 9.81 * t ^ 2
    let tempDiff := temp - STANDARD_TEMP
    let densityFactor := 1 - tempDiff * 0.002
    let actualDropM := dropM * densityFactor
    let mils := actualDropM * 100 / (d / 10)
    ⟨d, toFixed1 mils⟩

/-- Exact value of `Math.floor (Math.sqrt s / w)` for `0 ≤ s` and `0 < w`,
computed over `ℚ`: since `√s / w = √(s / w²)` and the floor of a real square
root of a nonnegative number `q` is `Nat.sqrt ⌊q⌋`, no real-number square root
is needed.  The scoring theorems prove this equal to the real expression. -/
def floorSqrtDiv (s w : ℚ) : ℕ := Nat.sqrt (Int.toNat ⌊s / w ^ 2⌋)

/-- Scoring step of `fireShot` (App.tsx lines 100–117), as the spec's
`scoreShot` contract: `errorMagnitude = √(x² + y²)`; hit iff
`errorMagnitude < targetRadius` (embedded exactly as the squared comparison
`x² + y² < targetRadius²`); on a hit, `rings = 10 − ⌊errorMagnitude /
ringWidth⌋` with `ringWidth = targetRadius / 6`, raised to 5 when below 5;
on a miss, `rings = 0`. -/
def scoreShot (x y : ℚ) : Bool × ℤ :=
  let s := x * x + y * y
  let targetRadius := TARGET_SIZE_CM / 2
  let isHit : Bool := decide (s < targetRadius ^ 2)
  let rings : ℤ :=
    if isHit then
      let ringWidth := targetRadius / 6
      let r : ℤ := 10 - (floorSqrtDiv s ringWidth : ℤ)
      if r < 5 then 5 else r
    else 0
  (isHit, rings)

/-- Game status enum from `types.ts`. -/
inductive GameStatus where
  | MENU
  | BRIEFING
  | AIMING
  | RESULT
deriving DecidableEq

/-- Game mode union type from `types.ts`. -/
inductive GameMode where
  | TRAINING
  | CAMPAIGN
deriving DecidableEq

/-- Level constraint record from `types.ts` (`LevelConfig.constraints`).
The optional `disableSway?` boolean is modelled as a `Bool` that is `false`
when the source omits it (the source only tests its truthiness). -/
structure Constraints where
  minDist : ℚ
  maxDist : ℚ
  minWind : ℚ
  maxWind : ℚ
  fixedWindDir : Option ℚ
  fixedTemp : Option ℚ
  disableSway : Bool
deriving DecidableEq

/-- Level configuration from `types.ts`.  The per-level display texts are
presentation data never read by the core and are omitted. -/
structure LevelConfig where
  id : String
  constraints : Constraints
deriving DecidableEq

/-- Training level constraint data from `constants.ts` (`TRAINING_LEVELS`). -/
def TRAINING_LEVELS : List LevelConfig :=
  [⟨"t1", ⟨300, 300, 0, 0, none, some 15, true⟩⟩,
   ⟨"t2", ⟨400, 400, 5, 5, some 90, some 15, true⟩⟩,
   ⟨"t3", ⟨300, 300, 0, 0, none, some 15, false⟩⟩,
   ⟨"t4", ⟨600, 600, 0, 0, none, some 35, false⟩⟩,
   ⟨"t5", ⟨500, 500, 2, 4, none, some 15, false⟩⟩]

/-- Campaign level constraint data from `constants.ts` (`CAMPAIGN_LEVELS`). -/
def CAMPAIGN_LEVELS : List LevelConfig :=
  [⟨"c1", ⟨300, 300, 0, 0, none, some 15, false⟩⟩,
   ⟨"c2", ⟨500, 500, 1, 3, none, some 15, false⟩⟩,
   ⟨"c3", ⟨300, 600, 0, 2, none, some 15, false⟩⟩,
   ⟨"c4", ⟨500, 800, 3, 6, none, some 35, false⟩⟩,
   ⟨"c5", ⟨800, 1100, 5, 12, none, some (-5), false⟩⟩]

/-- Session state owned by the `App` component (App.tsx): status, game mode
(`null` before selection), current level index, environment, turrets, last
shot and the mastery counter.  Purely visual state (zoom index, breath hold,
language) is presentation data never read by the core and is omitted. -/
structure AppState where
  status : GameStatus
  gameMode : Option GameMode
  currentLevelIndex : ℕ
  env : Environment
  turrets : TurretState
  lastShot : Option ShotResult
  masteryScore : ℤ
deriving DecidableEq

/-- Level list selection `gameMode === 'TRAINING' ? TRAINING_LEVELS :
CAMPAIGN_LEVELS` as it appears in App.tsx: a `null` mode selects the
campaign list. -/
def levelsFor (mode : Option GameMode) : List LevelConfig :=
  match mode with
  | some GameMode.TRAINING => TRAINING_LEVELS
  | _ => CAMPAIGN_LEVELS

/-- Fallback level used to model the source's unchecked `levels[levelIndex]`
indexing; every call site passes an index inside the list. -/
def dummyLevel : LevelConfig := ⟨"", ⟨0, 0, 0, 0, none, none, false⟩⟩

/-- Transition `startBriefing` from App.tsx.  `gen` models
`generateLevelEnvironment` (an injected random source, per the design notes);
`mode` is `Option GameMode` because the source reaches this handler through
the non-null assertion `gameMode!`. -/
def startBriefing (gen : LevelConfig → Environment) (mode : Option GameMode)
    (levelIndex : ℕ) (s : AppState) : AppState :=
  let levels := levelsFor mode
  let config := levels.getD levelIndex dummyLevel
  { s with
    gameMode := mode
    currentLevelIndex := levelIndex
    env := gen config
    turrets := ⟨0, 0⟩
    lastShot := none
    status := GameStatus.BRIEFING }

/-- Transition `startGame` from App.tsx. -/
def startGame (s : AppState) : AppState :=
  { s with status := GameStatus.AIMING }

/-- Transition `fireShot` from App.tsx.  `now` models `Date.now()`;
`cosDeg` / `powDrift` are the solver's transcendental parameters.  Outside
AIMING the handler returns without touching any state. -/
def fireShot (now : ℤ) (cosDeg powDrift : ℚ → ℚ) (s : AppState) : AppState :=
  if s.status ≠ GameStatus.AIMING then s
  else
    let impact := calculateImpact cosDeg powDrift s.env s.turrets
    let sc := scoreShot impact.1 impact.2
    let isHit := sc.1
    let rings := sc.2
    let mastery : ℤ :=
      if isHit then
        if rings = 10 then s.masteryScore + 2
        else if rings ≥ 7 then s.masteryScore + 1
        else max 0 (s.masteryScore - 1)
      else 0
    let result : ShotResult :=
      ⟨isHit, if isHit then rings * 10 else 0, rings, impact.2, impact.1, now⟩
    { s with
      masteryScore := mastery
      lastShot := some result
      status := GameStatus.RESULT }

/-- Transition `handleNextLevel` from App.tsx: with a next level it starts the
next briefing; otherwise it sets the status to MENU ("Campaign Complete"). -/
def handleNextLevel (gen : LevelConfig → Environment) (s : AppState) : AppState :=
  let levels := levelsFor s.gameMode
  if s.currentLevelIndex + 1 < levels.length then
    startBriefing gen s.gameMode (s.currentLevelIndex + 1) s
  else
    { s with status := GameStatus.MENU }

/-- Transition `handlePrevLevel` from App.tsx. -/
def handlePrevLevel (gen : LevelConfig → Environment) (s : AppState) : AppState :=
  if s.currentLevelIndex > 0 then
    startBriefing gen s.gameMode (s.currentLevelIndex - 1) s
  else s

/-- Transition `handleRetry` from App.tsx: clears the last shot and returns to
AIMING, preserving environment and turrets; the source has no status guard. -/
def handleRetry (s : AppState) : AppState :=
  { s with lastShot := none, status := GameStatus.AIMING }

/-- Transition `returnToMenu` from App.tsx. -/
def returnToMenu (s : AppState) : AppState :=
  { s with
    status := GameStatus.MENU
    gameMode := none
    lastShot := none
    masteryScore := 0 }

/-- The `setTurrets` state setter App.tsx hands to the control panel, applied
with a replacement value. -/
def setTurretsTo (t : TurretState) (s : AppState) : AppState :=
  { s with turrets := t }

/-- Structured content of one instructor-feedback line.  The source emits
language-selected strings; the spec fixes only their content and ordering, so
each push site is modelled by one constructor carrying the unrounded numeric
payloads (the source rounds them with `toFixed` only for display). -/
inductive FeedbackItem where
  | perfectHit
  | goodHit (rings : ℤ)
  | missLine
  | formulaLine (distance cmPerMil : ℚ)
  | divider
  | elevationErrorLine (isHigh : Bool) (errCm : ℚ)
  | envTempHot (temperature : ℚ)
  | envTempCold (temperature : ℚ)
  | elevationCalcLine (errCm cmPerMil corr : ℚ)
  | elevationAdvice (decrease : Bool) (corr : ℚ)
  | windageErrorLine (isRight : Bool) (errCm : ℚ)
  | envWindLine (windSpeed windDirection : ℚ)
  | windageCalcLine (errCm cmPerMil corr : ℚ)
  | windageAdvice (adjustLeft : Bool) (corr : ℚ)
deriving DecidableEq

/-- Feedback analyzer `getInstructorFeedback` from `services/ballistics.ts`,
with each `feedback.push` site mapped to its `FeedbackItem` constructor (the
`lang` parameter only selects phrasing and is dropped). -/
def getInstructorFeedback (result : ShotResult) (env : Environment) :
    List FeedbackItem :=
  let cmPerMil := env.distance / 10
  let vErr := result.dropError
  let hErr := result.windError
  let vCorrection := -(vErr / cmPerMil)
  let hCorrection := -(hErr / cmPerMil)
  let scoreLine : FeedbackItem :=
    if result.rings = 10 then FeedbackItem.perfectHit
    else if result.hit then FeedbackItem.goodHit result.rings
    else FeedbackItem.missLine
  let verticalLines : List FeedbackItem :=
    if |vCorrection| > 0.05 then
      [FeedbackItem.divider, FeedbackItem.elevationErrorLine (vErr > 0) |vErr|]
      ++ (if |vErr| > 15 then
            let tempDiff := env.temperature - 15
            if tempDiff > 10 ∧ vErr > 0 then [FeedbackItem.envTempHot env.temperature]
            else if tempDiff < -10 ∧ vErr < 0 then [FeedbackItem.envTempCold env.temperature]
            else []
          else [])
      ++ [FeedbackItem.elevationCalcLine |vErr| cmPerMil |vCorrection|,
          FeedbackItem.elevationAdvice (vErr > 0) |vCorrection|]
    else []
  let horizontalLines : List FeedbackItem :=
    if |hCorrection| > 0.05 then
      [FeedbackItem.divider, FeedbackItem.windageErrorLine (hErr > 0) |hErr|]
      ++ (if env.windSpeed > 0 then [FeedbackItem.envWindLine env.windSpeed env.windDirection]
          else [])
      ++ [FeedbackItem.windageCalcLine |hErr| cmPerMil |hCorrection|,
          FeedbackItem.windageAdvice (hErr > 0) |hCorrection|]
    else []
  [scoreLine, FeedbackItem.formulaLine env.distance cmPerMil]
    ++ verticalLines ++ horizontalLines

/-- Whether a feedback list contains the environmental temperature-cause line
(hot or cold variant). -/
def hasTempNote (l : List FeedbackItem) : Bool :=
  l.any fun i =>
    match i with
    | FeedbackItem.envTempHot _ => true
    | FeedbackItem.envTempCold _ => true
    | _ => false

/-- Whether a feedback list contains the wind-context line. -/
def hasWindNote (l : List FeedbackItem) : Bool :=
  l.any fun i =>
    match i with
    | FeedbackItem.envWindLine _ _ => true
    | _ => false

/-- Zero function used to instantiate the `cosDeg` / `powDrift` parameters at
inputs whose wind speed is zero (their value is then irrelevant). -/
def zeroFn : ℚ → ℚ := fun _ => 0

/-- Concrete aiming state for the mastery-sequence scenario: training level 1,
100 m, no wind, standard temperature, elevation dialed to the exact drop
(122625/152881 MIL), mastery 0. -/
def seqStart : AppState :=
  ⟨GameStatus.AIMING, some GameMode.TRAINING, 0, ⟨0, 0, 15, 50, 100⟩,
   ⟨122625 / 152881, 0⟩, none, 0⟩

/-- State after three fire/retry rounds from `seqStart` (each shot lands dead
center, a 10-ring hit). -/
def seqAfterThree : AppState :=
  fireShot 2 zeroFn zeroFn (handleRetry
    (fireShot 1 zeroFn zeroFn (handleRetry
      (fireShot 0 zeroFn zeroFn seqStart))))

/-- Floor of the real square root of a nonnegative rational, computed by
`Nat.sqrt` of the rational's floor. -/
theorem floor_sqrt_ratCast (q : ℚ) (hq : 0 ≤ q) :
    ⌊Real.sqrt (q : ℝ)⌋ = (Nat.sqrt (Int.toNat ⌊q⌋) : ℤ) := by
  have hfl : (0 : ℤ) ≤ ⌊q⌋ := Int.floor_nonneg.mpr hq
  have hto : ((Int.toNat ⌊q⌋ : ℤ)) = ⌊q⌋ := Int.toNat_of_nonneg hfl
  set n : ℕ := Int.toNat ⌊q⌋ with hn
  have hnq : ((n : ℚ)) ≤ q := by
    have h1 : ((⌊q⌋ : ℚ)) ≤ q := Int.floor_le q
    have h2 : ((n : ℚ)) = ((⌊q⌋ : ℤ) : ℚ) := by exact_mod_cast congrArg Int.cast hto
    rw [h2]; exact h1
  have hlt : q < (n : ℚ) + 1 := by
    have h1 : q < ((⌊q⌋ : ℚ)) + 1 := Int.lt_floor_add_one q
    have h2 : ((n : ℚ)) = ((⌊q⌋ : ℤ) : ℚ) := by exact_mod_cast congrArg Int.cast hto
    rw [h2]; exact h1
  rw [Int.floor_eq_iff]
  constructor
  · push_cast
    calc ((Nat.sqrt n : ℝ)) ≤ Real.sqrt ((n : ℕ) : ℝ) := Real.nat_sqrt_le_real_sqrt
    _ ≤ Real.sqrt (q : ℝ) := Real.sqrt_le_sqrt (by exact_mod_cast hnq)
  · have hpos : (0 : ℝ) < (Nat.sqrt n : ℝ) + 1 := by positivity
    have h2 : Real.sqrt (q : ℝ) < (Nat.sqrt n : ℝ) + 1 := by
      rw [Real.sqrt_lt' hpos]
      have hn2 : ((n : ℝ)) + 1 ≤ ((Nat.sqrt n : ℝ) + 1) ^ 2 := by
        have h3 : n + 1 ≤ (Nat.sqrt n + 1) ^ 2 := Nat.succ_le_of_lt (Nat.lt_succ_sqrt' n)
        exact_mod_cast h3
      calc (q : ℝ) < (n : ℝ) + 1 := by exact_mod_cast hlt
      _ ≤ ((Nat.sqrt n : ℝ) + 1) ^ 2 := hn2
    push_cast
    exact h2

/-- The rational computation `floorSqrtDiv` agrees with the real-number
expression `⌊√s / w⌋` used by the source's scoring code. -/
theorem floorSqrtDiv_spec (s w : ℚ) (hs : 0 ≤ s) (hw : 0 < w) :
    (floorSqrtDiv s w : ℤ) = ⌊Real.sqrt (s : ℝ) / (w : ℝ)⌋ := by
  have hq : (0 : ℚ) ≤ s / w ^ 2 := by positivity
  have key := floor_sqrt_ratCast (s / w ^ 2) hq
  have hwR : (0 : ℝ) ≤ (w : ℝ) := by exact_mod_cast hw.le
  have hsd : Real.sqrt ((s : ℝ) / (w : ℝ) ^ 2) = Real.sqrt (s : ℝ) / (w : ℝ) := by
    rw [Real.sqrt_div (by exact_mod_cast hs), Real.sqrt_sq hwR]
  have hcast : ((s / w ^ 2 : ℚ) : ℝ) = (s : ℝ) / (w : ℝ) ^ 2 := by push_cast; ring
  unfold floorSqrtDiv
  rw [← hsd, ← hcast, key]

/-- With zero wind the solver's output reduces to the pure drop/dial
formulas, for any `cosDeg` and `powDrift`. -/
theorem calculateImpact_zeroWind (cosDeg powDrift : ℚ → ℚ) (env : Environment)
    (turrets : TurretState) (h : env.windSpeed = 0) :
    calculateImpact cosDeg powDrift env turrets =
      (turrets.windage * (env.distance / 10),
       -(0.5 * 9.81 * (env.distance / (850 * 0.92)) ^ 2 * 100 *
           (1 - (env.temperature - 15) * 0.002)) +
         turrets.elevation * (env.distance / 10)) := by
  unfold calculateImpact
  rw [h]
  refine Prod.ext ?_ ?_ <;> simp only [MUZZLE_VELOCITY, STANDARD_TEMP] <;> ring

/-- Claim C1: for every environment with positive distance and every turret
setting, `calculateImpact` returns exactly the offsets of the specification's
algorithm (`specImpact`). -/
theorem claim_C1_solver_matches_spec (cosDeg powDrift : ℚ → ℚ)
    (env : Environment) (turrets : TurretState) (h : 0 < env.distance) :
    calculateImpact cosDeg powDrift env turrets =
      specImpact cosDeg powDrift env turrets := by
  unfold calculateImpact specImpact
  refine Prod.ext ?_ ?_ <;> simp only [MUZZLE_VELOCITY, STANDARD_TEMP] <;> ring

/-- Witness for C1 at a concrete 300 m environment. -/
theorem claim_C1_witness :
    0 < (⟨0, 0, 15, 50, 300⟩ : Environment).distance ∧
    calculateImpact (fun _ => 0) (fun _ => 1) ⟨0, 0, 15, 50, 300⟩ ⟨0, 0⟩ =
      specImpact (fun _ => 0) (fun _ => 1) ⟨0, 0, 15, 50, 300⟩ ⟨0, 0⟩ :=
  ⟨by norm_num, claim_C1_solver_matches_spec _ _ _ _ (by norm_num)⟩

/-- An integer raise-to-5 conditional is a `max`. -/
theorem if_lt_five_eq_max (r : ℤ) : (if r < 5 then 5 else r) = max 5 r := by
  rcases lt_or_ge r 5 with h | h
  · rw [if_pos h, max_eq_left h.le]
  · rw [if_neg (not_lt.mpr h), max_eq_right h]

/-- Claim C2: scoring with target diameter 45 cm classifies an impact as a hit
exactly when the Euclidean norm of (x, y) is strictly below 22.5 (so a norm of
exactly 22.5 is a miss); on a hit the ring count is 10 − ⌊norm / 3.75⌋ clamped
below at 5 (every hit scores at least 5), and on a miss it is 0. -/
theorem claim_C2_scoring (x y : ℚ) :
    ((scoreShot x y).1 = true ↔
      Real.sqrt ((x : ℝ) ^ 2 + (y : ℝ) ^ 2) < 45 / 2) ∧
    ((scoreShot x y).1 = true →
      (scoreShot x y).2 =
          max 5 (10 - ⌊Real.sqrt ((x : ℝ) ^ 2 + (y : ℝ) ^ 2) / (15 / 4)⌋) ∧
        5 ≤ (scoreShot x y).2) ∧
    ((scoreShot x y).1 = false → (scoreShot x y).2 = 0) := by
  have hs : (0 : ℚ) ≤ x * x + y * y :=
    add_nonneg (mul_self_nonneg x) (mul_self_nonneg y)
  have hcast : ((x * x + y * y : ℚ) : ℝ) = (x : ℝ) ^ 2 + (y : ℝ) ^ 2 := by
    push_cast; ring
  have hfd : (floorSqrtDiv (x * x + y * y) (15 / 4) : ℤ) =
      ⌊Real.sqrt ((x : ℝ) ^ 2 + (y : ℝ) ^ 2) / ((15 : ℝ) / 4)⌋ := by
    rw [floorSqrtDiv_spec (x * x + y * y) (15 / 4) hs (by norm_num)]
    congr 1
    rw [hcast]
    norm_num
  have hhit : (scoreShot x y).1 = true ↔ x * x + y * y < (45 / 2 : ℚ) ^ 2 := by
    simp [scoreShot, TARGET_SIZE_CM]
  have hq2 : (((45 / 2 : ℚ) ^ 2 : ℚ) : ℝ) = ((45 : ℝ) / 2) ^ 2 := by norm_num
  have hreal : x * x + y * y < (45 / 2 : ℚ) ^ 2 ↔
      Real.sqrt ((x : ℝ) ^ 2 + (y : ℝ) ^ 2) < 45 / 2 := by
    rw [Real.sqrt_lt' (by norm_num : (0 : ℝ) < 45 / 2), ← hcast, ← hq2]
    exact Rat.cast_lt.symm
  have hsnd : ∀ _ : x * x + y * y < (45 / 2 : ℚ) ^ 2, (scoreShot x y).2 =
      max 5 (10 - (floorSqrtDiv (x * x + y * y) (15 / 4) : ℤ)) := by
    intro hq
    simp only [scoreShot, TARGET_SIZE_CM]
    rw [show (45 : ℚ) / 2 / 6 = 15 / 4 by norm_num, if_pos (by simpa using hq)]
    exact if_lt_five_eq_max _
  refine ⟨hhit.trans hreal, fun h => ?_, fun h => ?_⟩
  · have hq := hhit.mp h
    refine ⟨by rw [hsnd hq, hfd], ?_⟩
    rw [hsnd hq]
    exact le_max_left 5 _
  · have hq : ¬ x * x + y * y < (45 / 2 : ℚ) ^ 2 := by
      intro hc
      have h2 := hhit.mpr hc
      rw [h] at h2
      exact Bool.false_ne_true h2
    simp only [scoreShot, TARGET_SIZE_CM]
    rw [if_neg (by simpa using hq)]

/-- Counterexample to claim C3 as stated: in a session on the last training
level (index 4 of 5), invoking nextLevel is not a no-op — it changes the
status from RESULT to MENU. -/
theorem claim_C3_counterexample :
    handleNextLevel (fun _ => ⟨0, 0, 15, 50, 300⟩)
        ⟨GameStatus.RESULT, some GameMode.TRAINING, 4, ⟨0, 0, 15, 50, 300⟩,
         ⟨0, 0⟩, some ⟨true, 100, 10, 0, 0, 0⟩, 2⟩ ≠
      ⟨GameStatus.RESULT, some GameMode.TRAINING, 4, ⟨0, 0, 15, 50, 300⟩,
       ⟨0, 0⟩, some ⟨true, 100, 10, 0, 0, 0⟩, 2⟩ := by
  intro h
  have h2 := congrArg AppState.status h
  simp [handleNextLevel, levelsFor, TRAINING_LEVELS] at h2

/-- Claim C3 (amended): firing while the status is not AIMING changes
nothing; invoking nextLevel when no next level exists sets the status to MENU
and leaves all other session state (mode, level index, environment, turrets,
last shot, mastery) unchanged. -/
theorem claim_C3_invalid_invocations (now : ℤ) (cosDeg powDrift : ℚ → ℚ)
    (gen : LevelConfig → Environment) (s : AppState) :
    (s.status ≠ GameStatus.AIMING → fireShot now cosDeg powDrift s = s) ∧
    ((levelsFor s.gameMode).length ≤ s.currentLevelIndex + 1 →
      handleNextLevel gen s = { s with status := GameStatus.MENU }) := by
  constructor
  · intro h
    unfold fireShot
    rw [if_pos h]
  · intro h
    unfold handleNextLevel
    rw [if_neg (not_lt.mpr h)]

/-- Witness for C3 (amended): firing from MENU is a no-op, and nextLevel on
the last campaign level moves only the status, to MENU. -/
theorem claim_C3_witness :
    (fireShot 0 (fun _ => 0) (fun _ => 0)
        ⟨GameStatus.MENU, none, 0, ⟨0, 0, 15, 50, 100⟩, ⟨0, 0⟩, none, 0⟩ =
      ⟨GameStatus.MENU, none, 0, ⟨0, 0, 15, 50, 100⟩, ⟨0, 0⟩, none, 0⟩) ∧
    (handleNextLevel (fun _ => ⟨0, 0, 15, 50, 100⟩)
        ⟨GameStatus.RESULT, some GameMode.CAMPAIGN, 4, ⟨0, 0, 15, 50, 100⟩,
         ⟨0, 0⟩, none, 0⟩ =
      ⟨GameStatus.MENU, some GameMode.CAMPAIGN, 4, ⟨0, 0, 15, 50, 100⟩,
       ⟨0, 0⟩, none, 0⟩) :=
  ⟨(claim_C3_invalid_invocations 0 (fun _ => 0) (fun _ => 0) (fun _ => ⟨0, 0, 15, 50, 100⟩)
      ⟨GameStatus.MENU, none, 0, ⟨0, 0, 15, 50, 100⟩, ⟨0, 0⟩, none, 0⟩).1 (by decide),
   (claim_C3_invalid_invocations 0 (fun _ => 0) (fun _ => 0) (fun _ => ⟨0, 0, 15, 50, 100⟩)
      ⟨GameStatus.RESULT, some GameMode.CAMPAIGN, 4, ⟨0, 0, 15, 50, 100⟩,
       ⟨0, 0⟩, none, 0⟩).2 (by decide)⟩

/-- Counterexample to claim C5 as stated: two zero-wind environments with the
same windage dial (1 MIL) but different distances (100 m and 200 m) give
different horizontal offsets (10 cm and 20 cm). -/
theorem claim_C5_counterexample :
    ¬ ((calculateImpact (fun _ => 0) (fun _ => 0) ⟨0, 0, 15, 50, 100⟩ ⟨0, 1⟩).1 =
       (calculateImpact (fun _ => 0) (fun _ => 0) ⟨0, 0, 15, 50, 200⟩ ⟨0, 1⟩).1) := by
  norm_num [calculateImpact, MUZZLE_VELOCITY, STANDARD_TEMP]

/-- Claim C5 (amended): with zero wind the horizontal offset equals
windage × distance / 10 — it depends only on the windage dial and the
distance, not on temperature, wind direction, humidity or elevation. -/
theorem claim_C5_zero_wind_horizontal (cosDeg powDrift : ℚ → ℚ)
    (env : Environment) (turrets : TurretState) (h : env.windSpeed = 0) :
    (calculateImpact cosDeg powDrift env turrets).1 =
      turrets.windage * (env.distance / 10) := by
  rw [calculateImpact_zeroWind cosDeg powDrift env turrets h]

/-- Witness for C5 (amended) at a concrete zero-wind environment. -/
theorem claim_C5_witness :
    (calculateImpact (fun _ => 0) (fun _ => 0) ⟨0, 45, 20, 60, 500⟩ ⟨3, 2⟩).1 =
      (2 : ℚ) * (500 / 10) :=
  claim_C5_zero_wind_horizontal (fun _ => 0) (fun _ => 0) ⟨0, 45, 20, 60, 500⟩ ⟨3, 2⟩ rfl

/-- Claim C9: retry invoked in the RESULT state clears the last shot, sets
the status to AIMING, and leaves environment, turrets, mastery, mode and
level index unchanged. -/
theorem claim_C9_retry_from_result (s : AppState)
    (_h : s.status = GameStatus.RESULT) :
    handleRetry s = { s with status := GameStatus.AIMING, lastShot := none } :=
  rfl

/-- Witness for C9 at a concrete RESULT state. -/
theorem claim_C9_witness :
    handleRetry ⟨GameStatus.RESULT, some GameMode.TRAINING, 1,
        ⟨2, 90, 35, 40, 400⟩, ⟨1, -2⟩, some ⟨true, 50, 5, 1, 2, 3⟩, 4⟩ =
      ⟨GameStatus.AIMING, some GameMode.TRAINING, 1,
        ⟨2, 90, 35, 40, 400⟩, ⟨1, -2⟩, none, 4⟩ :=
  claim_C9_retry_from_result _ rfl

/-- Claim C10: the retry handler has no state guard — from any state it sets
the status to AIMING, clears the last shot, and leaves environment, turrets,
mastery, mode and level index unchanged. -/
theorem claim_C10_retry_unguarded (s : AppState) :
    handleRetry s = { s with status := GameStatus.AIMING, lastShot := none } :=
  rfl

/-- The ring count produced by scoring never exceeds 10. -/
theorem scoreShot_rings_le_ten (x y : ℚ) : (scoreShot x y).2 ≤ 10 := by
  unfold scoreShot
  dsimp only
  split_ifs with h1 h2
  · norm_num
  · have h3 : (0 : ℤ) ≤ (floorSqrtDiv (x * x + y * y) (TARGET_SIZE_CM / 2 / 6) : ℤ) :=
      Int.natCast_nonneg _
    omega
  · norm_num

/-- Claim C4: after a fired shot the mastery counter is updated exactly by the
policy — 10 rings add 2, rings in [7, 10) add 1, a hit below 7 rings
subtracts 1 never going below 0, a miss resets to 0; consequently three
consecutive 10-ring hits from mastery 0 yield 6 and one subsequent miss
yields 0. -/
theorem claim_C4_mastery (now : ℤ) (cosDeg powDrift : ℚ → ℚ) (s : AppState)
    (h : s.status = GameStatus.AIMING) :
    (∀ r : ShotResult, (fireShot now cosDeg powDrift s).lastShot = some r →
      (fireShot now cosDeg powDrift s).masteryScore =
        if r.hit = true ∧ r.rings = 10 then s.masteryScore + 2
        else if r.hit = true ∧ 7 ≤ r.rings ∧ r.rings < 10 then s.masteryScore + 1
        else if r.hit = true then max 0 (s.masteryScore - 1)
        else 0) ∧
    (0 ≤ s.masteryScore → 0 ≤ (fireShot now cosDeg powDrift s).masteryScore) ∧
    seqAfterThree.masteryScore = 6 ∧
    (fireShot 3 zeroFn zeroFn (setTurretsTo ⟨122625 / 152881, 100⟩
        (handleRetry seqAfterThree))).masteryScore = 0 := by
  have hguard : ¬ s.status ≠ GameStatus.AIMING := by simp [h]
  refine ⟨?_, ?_, ?_, ?_⟩
  · intro r hr
    unfold fireShot at hr ⊢
    rw [if_neg hguard] at hr ⊢
    dsimp only at hr ⊢
    have hr2 := Option.some.inj hr
    cases hr2
    dsimp only
    have hle := scoreShot_rings_le_ten
      (calculateImpact cosDeg powDrift s.env s.turrets).1
      (calculateImpact cosDeg powDrift s.env s.turrets).2
    split_ifs <;> simp_all <;> omega
  · intro hm
    unfold fireShot
    rw [if_neg hguard]
    dsimp only
    split_ifs <;> omega
  · unfold seqAfterThree seqStart
    norm_num [fireShot, handleRetry, calculateImpact, scoreShot, floorSqrtDiv,
      zeroFn, MUZZLE_VELOCITY, STANDARD_TEMP, TARGET_SIZE_CM]
  · unfold seqAfterThree seqStart
    norm_num [fireShot, handleRetry, setTurretsTo, calculateImpact, scoreShot,
      floorSqrtDiv, zeroFn, MUZZLE_VELOCITY, STANDARD_TEMP, TARGET_SIZE_CM]

/-- Witness for C4 at the concrete sequence-start state. -/
theorem claim_C4_witness :
    seqStart.status = GameStatus.AIMING ∧
    0 ≤ (fireShot 0 zeroFn zeroFn seqStart).masteryScore :=
  ⟨rfl, (claim_C4_mastery 0 zeroFn zeroFn seqStart rfl).2.1 (by norm_num [seqStart])⟩

/-- Claim C6: the range card has entries for exactly the distances 200…1200 m
in increasing order; each elevation is the solver's drop (same time-of-flight
and density steps, zero wind, zero dial) in cm divided by distance/10, rounded
to one decimal; and at 15 °C the elevations are monotonically non-decreasing. -/
theorem claim_C6_range_card (temp : ℚ) (cosDeg powDrift : ℚ → ℚ) :
    ((generateRangeCard temp).map RangeEntry.distance =
      [200, 300, 400, 500, 600, 700, 800, 900, 1000, 1100, 1200]) ∧
    (generateRangeCard temp = rangeCardDistances.map fun d =>
      ⟨d, toFixed1 (-(calculateImpact cosDeg powDrift ⟨0, 0, temp, 0, d⟩ ⟨0, 0⟩).2
            / (d / 10))⟩) ∧
    List.Chain' (· ≤ ·) ((generateRangeCard 15).map RangeEntry.elevation) := by
  refine ⟨?_, ?_, ?_⟩
  · simp [generateRangeCard, rangeCardDistances]
  · unfold generateRangeCard
    refine List.map_congr_left ?_
    intro d _
    rw [calculateImpact_zeroWind cosDeg powDrift ⟨0, 0, temp, 0, d⟩ ⟨0, 0⟩ rfl]
    dsimp only
    simp only [MUZZLE_VELOCITY, STANDARD_TEMP]
    congr 1
    ring
  · norm_num [generateRangeCard, rangeCardDistances, toFixed1, MUZZLE_VELOCITY,
      STANDARD_TEMP, List.chain'_cons, List.chain'_singleton]

set_option maxHeartbeats 1000000 in
/-- Closed form for the presence of the temperature-cause line in the
feedback: the vertical section must be emitted, the vertical error must
exceed 15 cm in magnitude, and the temperature deviation must be consistent
with the error's direction. -/
theorem hasTempNote_iff (result : ShotResult) (env : Environment) :
    hasTempNote (getInstructorFeedback result env) = true ↔
      (|(-(result.dropError / (env.distance / 10)))| > 0.05 ∧
        |result.dropError| > 15 ∧
        ((env.temperature - 15 > 10 ∧ result.dropError > 0) ∨
         (env.temperature - 15 < -10 ∧ result.dropError < 0))) := by
  unfold getInstructorFeedback hasTempNote
  dsimp only
  simp only [List.any_append, List.any_cons, List.any_nil]
  split_ifs <;> simp_all

set_option maxHeartbeats 1000000 in
/-- Closed form for the presence of the wind-context line in the feedback:
the horizontal section must be emitted and the wind speed must be positive. -/
theorem hasWindNote_iff (result : ShotResult) (env : Environment) :
    hasWindNote (getInstructorFeedback result env) = true ↔
      (|(-(result.windError / (env.distance / 10)))| > 0.05 ∧
        env.windSpeed > 0) := by
  unfold getInstructorFeedback hasWindNote
  dsimp only
  simp only [List.any_append, List.any_cons, List.any_nil]
  split_ifs <;> simp_all

/-- Claim C7: when the vertical section is emitted, its environmental-cause
line appears iff the vertical error exceeds 15 cm in magnitude and the
temperature deviates from 15 °C by more than 10 °C in the direction consistent
with the error (hotter than 25 °C with a high impact or colder than 5 °C with
a low impact; nothing for inconsistent combinations); when the horizontal
section is emitted, its wind-context line appears whenever windSpeed > 0, with
no consistency check. -/
theorem claim_C7_feedback (result : ShotResult) (env : Environment) :
    (|(-(result.dropError / (env.distance / 10)))| > 0.05 →
      (hasTempNote (getInstructorFeedback result env) = true ↔
        (|result.dropError| > 15 ∧
          ((env.temperature > 25 ∧ result.dropError > 0) ∨
           (env.temperature < 5 ∧ result.dropError < 0))))) ∧
    (|(-(result.windError / (env.distance / 10)))| > 0.05 →
      (hasWindNote (getInstructorFeedback result env) = true ↔
        env.windSpeed > 0)) := by
  constructor
  · intro hv
    rw [hasTempNote_iff]
    constructor
    · rintro ⟨_, h15, hdir⟩
      refine ⟨h15, ?_⟩
      rcases hdir with ⟨h1, h2⟩ | ⟨h1, h2⟩
      · exact Or.inl ⟨by linarith, h2⟩
      · exact Or.inr ⟨by linarith, h2⟩
    · rintro ⟨h15, hdir⟩
      refine ⟨hv, h15, ?_⟩
      rcases hdir with ⟨h1, h2⟩ | ⟨h1, h2⟩
      · exact Or.inl ⟨by linarith, h2⟩
      · exact Or.inr ⟨by linarith, h2⟩
  · intro hh
    rw [hasWindNote_iff]
    constructor
    · rintro ⟨_, hw⟩
      exact hw
    · intro hw
      exact ⟨hh, hw⟩

/-- Witness for C7 at a concrete cold, low-impact shot with wind present. -/
theorem claim_C7_witness :
    (hasTempNote (getInstructorFeedback ⟨false, 0, 0, -30, 20, 0⟩
        ⟨3, 90, -10, 50, 400⟩) = true ↔
      (|(-30 : ℚ)| > 15 ∧
        (((-10 : ℚ) > 25 ∧ (-30 : ℚ) > 0) ∨ ((-10 : ℚ) < 5 ∧ (-30 : ℚ) < 0)))) ∧
    (hasWindNote (getInstructorFeedback ⟨false, 0, 0, -30, 20, 0⟩
        ⟨3, 90, -10, 50, 400⟩) = true ↔ (3 : ℚ) > 0) :=
  ⟨(claim_C7_feedback ⟨false, 0, 0, -30, 20, 0⟩ ⟨3, 90, -10, 50, 400⟩).1
      (by rw [abs_of_nonneg] <;> norm_num),
   (claim_C7_feedback ⟨false, 0, 0, -30, 20, 0⟩ ⟨3, 90, -10, 50, 400⟩).2
      (by rw [abs_of_nonpos] <;> norm_num)⟩

/-- Claim C8: at 300 m, zero wind, 15 °C, windage 0 and elevation taken from
the 300 m range-table entry at 15 °C (the rounded value 2.4 MIL), the solver
returns x = 0 and a y smaller in magnitude than the 3.75 cm ring width, and
scoring yields a 10-ring hit. -/
theorem claim_C8_end_to_end (cosDeg powDrift : ℚ → ℚ) :
    (generateRangeCard 15)[1]? = some ⟨300, 2.4⟩ ∧
    (calculateImpact cosDeg powDrift ⟨0, 0, 15, 50, 300⟩ ⟨2.4, 0⟩).1 = 0 ∧
    |(calculateImpact cosDeg powDrift ⟨0, 0, 15, 50, 300⟩ ⟨2.4, 0⟩).2| < 15 / 4 ∧
    scoreShot (calculateImpact cosDeg powDrift ⟨0, 0, 15, 50, 300⟩ ⟨2.4, 0⟩).1
        (calculateImpact cosDeg powDrift ⟨0, 0, 15, 50, 300⟩ ⟨2.4, 0⟩).2 =
      (true, 10) := by
  have himp : calculateImpact cosDeg powDrift ⟨0, 0, 15, 50, 300⟩ ⟨2.4, 0⟩ =
      (0, -28818 / 152881) := by
    rw [calculateImpact_zeroWind cosDeg powDrift ⟨0, 0, 15, 50, 300⟩ ⟨2.4, 0⟩ rfl]
    norm_num
  refine ⟨?_, ?_, ?_, ?_⟩
  · norm_num [generateRangeCard, rangeCardDistances, toFixed1, MUZZLE_VELOCITY,
      STANDARD_TEMP]
  · rw [himp]
  · rw [himp]
    rw [show |((0 : ℚ), (-28818 / 152881 : ℚ)).2| = 28818 / 152881 by
      rw [abs_of_nonpos] <;> norm_num]
    norm_num
  · rw [himp]
    norm_num [scoreShot, floorSqrtDiv, TARGET_SIZE_CM]
